import Mathlib

/-!
# systeminfo: a shallow embedding of `main.go`

The program is one HTTP handler behind a shared-secret check, plus the
start-up code that installs it.  The embedding keeps the source's names.

* Go strings are byte sequences (`GoString`); `==` on strings is the
  runtime's length check followed by a byte comparison.
* A Go slice is either `nil` or a backing list (`GoSlice`), because the two
  are rendered differently by `encoding/json`.
* A library call returning `(T, error)` is a `Ret T`: the value and the
  error travel together, and `x, _ = f()` keeps the value whatever the error.
* The operating system is an explicit environment `OS` answering every
  query; each query the code issues is appended to a trace.
* The web framework's context is a response writer with a status, a
  header-written flag and a body; `BindHeader`, `AbortWithStatus` and `JSON`
  act on it as the framework documents them.
-/

namespace SystemInfo

/-! ## Go values -/

/-- A Go `string`: an immutable sequence of bytes. -/
abbrev GoString := List (Fin 256)

/-- The runtime routine comparing the first `size` bytes of two buffers. -/
def memequal : GoString → GoString → Nat → Bool
  | _, _, 0 => true
  | x :: xs, y :: ys, n + 1 => x == y && memequal xs ys n
  | _, _, _ + 1 => false

/-- Go's `==` on strings: equal lengths, then equal bytes. -/
def stringEq (a b : GoString) : Bool :=
  a.length == b.length && memequal a b a.length

/-- A Go slice: `nil`, or a slice over the listed elements. -/
inductive GoSlice (α : Type) where
  | nil : GoSlice α
  | mk (elems : List α) : GoSlice α
  deriving DecidableEq, Repr

namespace GoSlice

/-- The elements a `range` loop visits. -/
def elems {α : Type} : GoSlice α → List α
  | nil => []
  | mk xs => xs

/-- The builtin `len`. -/
def len {α : Type} (s : GoSlice α) : Nat := s.elems.length

/-- Whether the slice is `nil`; `encoding/json` writes `null` for a nil
slice and a JSON array for every other slice. -/
def isNil {α : Type} : GoSlice α → Bool
  | nil => true
  | mk _ => false

end GoSlice

/-- The builtin `make([]T, n)`: a non-nil slice of `n` zero values. -/
def make {α : Type} (zero : α) (n : Nat) : GoSlice α :=
  GoSlice.mk (List.replicate n zero)

/-- The indexed store `s[i] = v`. -/
def GoSlice.set {α : Type} : GoSlice α → Nat → α → GoSlice α
  | GoSlice.nil, _, _ => GoSlice.nil
  | GoSlice.mk xs, i, v => GoSlice.mk (xs.set i v)

/-- A Go `error` value. -/
structure Error where
  msg : GoString
  deriving DecidableEq, Repr

/-- The pair `(T, error)` returned by a library call. -/
structure Ret (α : Type) where
  val : α
  err : Option Error
  deriving DecidableEq, Repr

/-- The bits of a `float64`; the program only carries the value. -/
abbrev Float64 := Nat

/-- The bits of a `float32`; the program only carries the value. -/
abbrev Float32 := Nat

/-- Whether a `float64` is neither NaN nor infinite: its eleven exponent bits
are not all ones. -/
def finite64 (bits : Float64) : Bool := (bits / 2 ^ 52) % 2048 != 2047

/-- Whether a `float32` is neither NaN nor infinite: its eight exponent bits
are not all ones. -/
def finite32 (bits : Float32) : Bool := (bits / 2 ^ 23) % 256 != 255

/-! ## Authorization -/

/-- The struct `Security`, filled from the `Authorization` header. -/
structure Security where
  Authorization : GoString
  deriving DecidableEq, Repr

/-- The method `(*Security).IsValid`. -/
def Security.IsValid (sec : Security) (value : GoString) : Bool :=
  stringEq sec.Authorization value

/-! ## Records -/

/-- The struct `Proc`: one process of the response. -/
structure Proc where
  Pid : Int
  Ppid : Int
  Uids : GoSlice Int
  Gids : GoSlice Int
  Groups : GoSlice Int
  Nthreads : Int
  User : GoString
  Nice : Int
  Name : GoString
  Executable : GoString
  Cmdline : GoSlice GoString
  Cwd : GoString
  CpuPerc : Float64
  MemPerc : Float32
  CreateTime : Int
  IsRunning : Bool
  deriving DecidableEq, Repr

/-- The composite literal `Proc{}`: every field at its zero value. -/
def Proc.zero : Proc :=
  { Pid := 0, Ppid := 0, Uids := GoSlice.nil, Gids := GoSlice.nil, Groups := GoSlice.nil,
    Nthreads := 0, User := [], Nice := 0, Name := [], Executable := [],
    Cmdline := GoSlice.nil, Cwd := [], CpuPerc := 0, MemPerc := 0, CreateTime := 0,
    IsRunning := false }

/-- The library record `disk.PartitionStat`; the program reads only `Mountpoint`. -/
structure PartitionStat where
  Device : GoString
  Mountpoint : GoString
  Fstype : GoString
  Opts : GoSlice GoString
  deriving DecidableEq, Repr

/-- The zero value of `disk.PartitionStat`. -/
def PartitionStat.zero : PartitionStat :=
  { Device := [], Mountpoint := [], Fstype := [], Opts := GoSlice.nil }

/-- The library record `disk.UsageStat`, carried without being inspected; its
two `float64` members are kept apart from the rest of its contents. -/
structure UsageStat where
  contents : Nat
  UsedPercent : Float64 := 0
  InodesUsedPercent : Float64 := 0
  deriving DecidableEq, Repr

/-- The library record `load.AvgStat`, carried without being inspected; its
three `float64` members are kept apart from the rest of its contents. -/
structure AvgStat where
  contents : Nat
  Load1 : Float64 := 0
  Load5 : Float64 := 0
  Load15 : Float64 := 0
  deriving DecidableEq, Repr

/-- The library record `mem.VirtualMemoryStat`, carried without being
inspected; its `float64` member is kept apart from the rest of its contents. -/
structure VirtualMemoryStat where
  contents : Nat
  UsedPercent : Float64 := 0
  deriving DecidableEq, Repr

/-- The library record `host.InfoStat`, carried without being inspected. -/
structure InfoStat where
  contents : Nat
  deriving DecidableEq, Repr

/-- The library record `net.InterfaceStat`, carried without being inspected. -/
structure InterfaceStat where
  contents : Nat
  deriving DecidableEq, Repr

/-- The struct `Storage`; the pointer field `Usage` is `none` when nil. -/
structure Storage where
  Partition : PartitionStat
  Usage : Option UsageStat
  deriving DecidableEq, Repr

/-- The composite literal `Storage{}`. -/
def Storage.zero : Storage :=
  { Partition := PartitionStat.zero, Usage := none }

/-- The struct `System`: the aggregate that is serialised; pointer fields are
`none` when nil. -/
structure System where
  Procs : GoSlice Proc
  Storage : GoSlice Storage
  SysLoad : Option AvgStat
  MemLoad : Option VirtualMemoryStat
  Host : Option InfoStat
  Net : GoSlice InterfaceStat
  deriving DecidableEq, Repr

/-- Whether `encoding/json` can encode a `Proc`: it refuses a NaN or an
infinite floating-point value. -/
def Proc.marshals (proc : Proc) : Bool :=
  finite64 proc.CpuPerc && finite32 proc.MemPerc

/-- Whether `encoding/json` can encode a `Storage`. -/
def Storage.marshals (storage : Storage) : Bool :=
  match storage.Usage with
  | none => true
  | some usage => finite64 usage.UsedPercent && finite64 usage.InodesUsedPercent

/-- Whether `encoding/json` can encode a `System`: every floating-point value
anywhere in it is finite. -/
def System.marshals (sys : System) : Bool :=
  sys.Procs.elems.all Proc.marshals
    && sys.Storage.elems.all Storage.marshals
    && (match sys.SysLoad with
        | none => true
        | some avg => finite64 avg.Load1 && finite64 avg.Load5 && finite64 avg.Load15)
    && (match sys.MemLoad with
        | none => true
        | some vm => finite64 vm.UsedPercent)

/-- The composite literal `System{}`. -/
def System.zero : System :=
  { Procs := GoSlice.nil, Storage := GoSlice.nil, SysLoad := none, MemLoad := none,
    Host := none, Net := GoSlice.nil }

/-! ## The operating system as an environment -/

/-- A process handle `*process.Process`: its pid and what each of its query
methods returns. -/
structure Process where
  Pid : Int
  Ppid : Ret Int
  Uids : Ret (GoSlice Int)
  Gids : Ret (GoSlice Int)
  Groups : Ret (GoSlice Int)
  NumThreads : Ret Int
  Username : Ret GoString
  Nice : Ret Int
  Name : Ret GoString
  Exe : Ret GoString
  CmdlineSlice : Ret (GoSlice GoString)
  Cwd : Ret GoString
  CPUPercent : Ret Float64
  MemoryPercent : Ret Float32
  CreateTime : Ret Int
  IsRunning : Ret Bool
  deriving DecidableEq, Repr

/-- What the library calls return during one request. -/
structure OS where
  Processes : Ret (GoSlice Process)
  Partitions : Bool → Ret (GoSlice PartitionStat)
  Usage : GoString → Ret (Option UsageStat)
  Avg : Ret (Option AvgStat)
  VirtualMemory : Ret (Option VirtualMemoryStat)
  Interfaces : Ret (GoSlice InterfaceStat)
  Info : Ret (Option InfoStat)

/-- A library call issued by the program. -/
inductive Query where
  | Processes
  | Ppid (pid : Int)
  | Uids (pid : Int)
  | Gids (pid : Int)
  | Groups (pid : Int)
  | NumThreads (pid : Int)
  | Username (pid : Int)
  | Nice (pid : Int)
  | Name (pid : Int)
  | Exe (pid : Int)
  | CmdlineSlice (pid : Int)
  | Cwd (pid : Int)
  | CPUPercent (pid : Int)
  | MemoryPercent (pid : Int)
  | CreateTime (pid : Int)
  | IsRunning (pid : Int)
  | Partitions (all : Bool)
  | Usage (path : GoString)
  | Avg
  | VirtualMemory
  | Interfaces
  | Info
  deriving DecidableEq, Repr

/-- A value together with the library calls made to obtain it. -/
structure Traced (α : Type) where
  val : α
  trace : List Query
  deriving DecidableEq, Repr

/-! ## Collection -/

/-- The statement `for i, x := range xs`, started at index `i`, threading the
loop state `s`. -/
def rangeFrom {α σ : Type} (body : Nat → α → σ → σ) : Nat → List α → σ → σ
  | _, [], s => s
  | i, x :: xs, s => rangeFrom body (i + 1) xs (body i x s)

/-- The shape shared by the bodies of both collection loops: store `f x` at
the current index and log the calls `q x`. -/
def storeStep {α β : Type} (f : α → β) (q : α → List Query) :
    Nat → α → Traced (GoSlice β) → Traced (GoSlice β) :=
  fun i x st => { val := st.val.set i (f x), trace := st.trace ++ q x }

/-- The body of the loop of `GetSystemProcs` up to the store: the fields are
assigned one after the other, each from the value its query returned. -/
def procOf (process : Process) : Proc :=
  let proc := Proc.zero
  let proc := { proc with Pid := process.Pid }
  let proc := { proc with Ppid := process.Ppid.val }
  let proc := { proc with Uids := process.Uids.val }
  let proc := { proc with Gids := process.Gids.val }
  let proc := { proc with Groups := process.Groups.val }
  let proc := { proc with Nthreads := process.NumThreads.val }
  let proc := { proc with User := process.Username.val }
  let proc := { proc with Nice := process.Nice.val }
  let proc := { proc with Name := process.Name.val }
  let proc := { proc with Executable := process.Exe.val }
  let proc := { proc with Cmdline := process.CmdlineSlice.val }
  let proc := { proc with Cwd := process.Cwd.val }
  let proc := { proc with CpuPerc := process.CPUPercent.val }
  let proc := { proc with MemPerc := process.MemoryPercent.val }
  let proc := { proc with CreateTime := process.CreateTime.val }
  let proc := { proc with IsRunning := process.IsRunning.val }
  proc

/-- The library calls of one iteration of the loop of `GetSystemProcs`. -/
def procQueries (process : Process) : List Query :=
  [Query.Ppid process.Pid, Query.Uids process.Pid, Query.Gids process.Pid,
   Query.Groups process.Pid, Query.NumThreads process.Pid, Query.Username process.Pid,
   Query.Nice process.Pid, Query.Name process.Pid, Query.Exe process.Pid,
   Query.CmdlineSlice process.Pid, Query.Cwd process.Pid, Query.CPUPercent process.Pid,
   Query.MemoryPercent process.Pid, Query.CreateTime process.Pid,
   Query.IsRunning process.Pid]

/-- The function `GetSystemProcs`. -/
def GetSystemProcs (os : OS) : Traced (GoSlice Proc) :=
  let processes := os.Processes.val
  let array := make Proc.zero processes.len
  rangeFrom
    (fun i process (st : Traced (GoSlice Proc)) =>
      { val := st.val.set i (procOf process), trace := st.trace ++ procQueries process })
    0 processes.elems { val := array, trace := [Query.Processes] }

/-- The body of the loop of `GetStorage` up to the store. -/
def storageOf (os : OS) (part : PartitionStat) : Storage :=
  let storage := Storage.zero
  let storage := { storage with Partition := part }
  let storage := { storage with Usage := (os.Usage part.Mountpoint).val }
  storage

/-- The function `GetStorage`. -/
def GetStorage (os : OS) : Traced (GoSlice Storage) :=
  let parts := (os.Partitions false).val
  let array := make Storage.zero parts.len
  rangeFrom
    (fun i part (st : Traced (GoSlice Storage)) =>
      { val := st.val.set i (storageOf os part),
        trace := st.trace ++ [Query.Usage part.Mountpoint] })
    0 parts.elems { val := array, trace := [Query.Partitions false] }

/-! ## The handler -/

/-- What the handler sees of a request: the first value of its
`Authorization` header (`none` when the header is absent) and the error, if
any, that the framework's header binding reports. -/
structure Request where
  Authorization : Option GoString
  bindError : Option Error
  deriving DecidableEq, Repr

/-- What the client receives: the status, and the aggregate sent as JSON
body (`none` when no body is written). -/
structure Response where
  status : Nat
  body : Option System
  deriving DecidableEq, Repr

/-- The framework's context `*gin.Context`, reduced to its response writer:
the status, whether the header has been written, and the body. -/
structure Context where
  status : Nat
  written : Bool
  body : Option System
  deriving DecidableEq, Repr

/-- The constant `http.StatusBadRequest`. -/
def StatusBadRequest : Nat := 400

/-- The constant `http.StatusUnauthorized`. -/
def StatusUnauthorized : Nat := 401

/-- The constant `http.StatusOK`. -/
def StatusOK : Nat := 200

/-- The context a handler starts with: status 200, nothing written. -/
def Context.fresh : Context :=
  { status := StatusOK, written := false, body := none }

/-- The framework call `c.Status(code)`: sets the status unless the header
has already been written. -/
def Context.Status (c : Context) (code : Nat) : Context :=
  if 0 < code ∧ c.status ≠ code then
    if c.written then c else { c with status := code }
  else c

/-- The framework call `c.Writer.WriteHeaderNow()`: writes the header once. -/
def Context.WriteHeaderNow (c : Context) : Context :=
  if c.written then c else { c with written := true }

/-- The framework call `c.AbortWithStatus(code)`: sets the status, writes the
header and stops the chain, with no body. -/
def AbortWithStatus (c : Context) (code : Nat) : Context :=
  (c.Status code).WriteHeaderNow

/-- The framework call `c.BindHeader(&sec)`: the field tagged
`header:"Authorization"` receives the header's value, the empty string when
the header is absent.  `BindHeader` is the must-bind variant: when binding
fails it aborts the request with status 400 before it returns the error. -/
def BindHeader (c : Context) (r : Request) : Ret Security × Context :=
  match r.bindError with
  | none => ({ val := { Authorization := r.Authorization.getD [] }, err := none }, c)
  | some e =>
      ({ val := { Authorization := r.Authorization.getD [] }, err := some e },
        AbortWithStatus c StatusBadRequest)

/-- The framework call `c.JSON(code, &sys)`: sets the status and writes the
encoded aggregate; when the aggregate cannot be encoded nothing is written
and the error is recorded on the context.  (Releases of the framework that
panic on a render error instead answer 500 through the recovery middleware
installed by `gin.Default()`; in both, no body is sent.) -/
def JSON (c : Context) (code : Nat) (sys : System) : Context :=
  let c := c.Status code
  if sys.marshals then { c.WriteHeaderNow with body := some sys } else c

/-- The response the server sends once the handler has returned. -/
def Context.response (c : Context) : Response :=
  { status := c.status, body := c.body }

/-- The handler `GetSystemInfo`, for the configured secret `apikey`. -/
def GetSystemInfo (apikey : GoString) (os : OS) (r : Request) : Traced Response :=
  let c := Context.fresh
  let bound := BindHeader c r
  let c := bound.2
  if bound.1.err.isSome || !bound.1.val.IsValid apikey then
    { val := (AbortWithStatus c StatusUnauthorized).response, trace := [] }
  else
    let sys := System.zero
    let procs := GetSystemProcs os
    let sys := { sys with Procs := procs.val }
    let sys := { sys with SysLoad := os.Avg.val }
    let sys := { sys with MemLoad := os.VirtualMemory.val }
    let storage := GetStorage os
    let sys := { sys with Storage := storage.val }
    let sys := { sys with Net := os.Interfaces.val }
    let sys := { sys with Host := os.Info.val }
    { val := (JSON c StatusOK sys).response,
      trace := procs.trace ++ [Query.Avg, Query.VirtualMemory] ++ storage.trace
        ++ [Query.Interfaces, Query.Info] }

/-! ## Start-up -/

/-- The command-line flags after `flag.Parse()`. -/
structure Flags where
  path : GoString
  bind : GoString
  apikey : GoString
  uuidgen : Bool
  debug : Bool
  deriving DecidableEq, Repr

/-- The two modes `main` can select. -/
inductive Mode where
  | DebugMode
  | ReleaseMode
  deriving DecidableEq, Repr

/-- An action of `main` on the outside world. -/
inductive Effect where
  | Println (s : GoString)
  | DisableConsoleColor
  | SetMode (m : Mode)
  | Default
  | GET (path : GoString)
  | Run (bind : GoString)
  deriving DecidableEq, Repr

/-- How `main` ends. -/
inductive Exit where
  | returned
  | panicked (msg : GoString)
  deriving DecidableEq, Repr

/-- The bytes of the message `-apikey was not set`. -/
def apikeyNotSet : GoString :=
  [45, 97, 112, 105, 107, 101, 121, 32, 119, 97, 115, 32, 110, 111, 116, 32, 115, 101, 116]

/-- The function `main` after flag parsing; `newUUID` is what
`uuid.NewString()` returns. -/
def main (f : Flags) (newUUID : GoString) : List Effect × Exit :=
  if f.uuidgen then
    ([Effect.Println newUUID], Exit.returned)
  else
    let eff := [Effect.DisableConsoleColor]
    let eff := eff ++ [Effect.SetMode (if f.debug then Mode.DebugMode else Mode.ReleaseMode)]
    if f.apikey.length < 1 then
      (eff, Exit.panicked apikeyNotSet)
    else
      (eff ++ [Effect.Default, Effect.GET f.path, Effect.Run f.bind], Exit.returned)

/-! ## Closed forms used in the statements -/

/-- The aggregate the handler assembles from the environment. -/
def aggregate (os : OS) : System :=
  { Procs := GoSlice.mk (os.Processes.val.elems.map procOf),
    Storage := GoSlice.mk ((os.Partitions false).val.elems.map (storageOf os)),
    SysLoad := os.Avg.val,
    MemLoad := os.VirtualMemory.val,
    Host := os.Info.val,
    Net := os.Interfaces.val }

/-- The library calls of one authorized request, in the order they are made. -/
def collectionTrace (os : OS) : List Query :=
  Query.Processes :: (os.Processes.val.elems.map procQueries).flatten
    ++ [Query.Avg, Query.VirtualMemory]
    ++ Query.Partitions false ::
        ((os.Partitions false).val.elems.map (fun part => [Query.Usage part.Mountpoint])).flatten
    ++ [Query.Interfaces, Query.Info]

/-- The condition under which the handler takes its rejecting branch. -/
def rejects (apikey : GoString) (r : Request) : Bool :=
  (BindHeader Context.fresh r).1.err.isSome
    || !(BindHeader Context.fresh r).1.val.IsValid apikey

/-! ## Sample inputs -/

/-- The bytes of `s3cr3t`. -/
def s3cr3t : GoString := [115, 51, 99, 114, 51, 116]

/-- The bytes of `wrong`. -/
def wrong : GoString := [119, 114, 111, 110, 103]

/-- The bytes of `S3CR3T`. -/
def s3cr3tUpper : GoString := [83, 51, 67, 82, 51, 84]

/-- The bytes of `s3cr3t` followed by a space. -/
def s3cr3tSpace : GoString := [115, 51, 99, 114, 51, 116, 32]

/-- An error value for the samples. -/
def someError : Error := { msg := [101, 114, 114] }

/-- An environment in which every library call fails, returning an error
beside a nil or zero value. -/
def failingOS : OS :=
  { Processes := { val := GoSlice.mk [], err := some someError },
    Partitions := fun _ => { val := GoSlice.nil, err := some someError },
    Usage := fun _ => { val := none, err := some someError },
    Avg := { val := none, err := some someError },
    VirtualMemory := { val := none, err := some someError },
    Interfaces := { val := GoSlice.nil, err := some someError },
    Info := { val := none, err := some someError } }

/-- A process whose every query succeeds. -/
def initProcess : Process :=
  { Pid := 1,
    Ppid := { val := 0, err := none },
    Uids := { val := GoSlice.mk [0, 0, 0, 0], err := none },
    Gids := { val := GoSlice.mk [0, 0, 0, 0], err := none },
    Groups := { val := GoSlice.mk [], err := none },
    NumThreads := { val := 1, err := none },
    Username := { val := [114, 111, 111, 116], err := none },
    Nice := { val := 20, err := none },
    Name := { val := [105, 110, 105, 116], err := none },
    Exe := { val := [47, 105, 110, 105, 116], err := none },
    CmdlineSlice := { val := GoSlice.mk [[47, 105, 110, 105, 116]], err := none },
    Cwd := { val := [47], err := none },
    CPUPercent := { val := 0, err := none },
    MemoryPercent := { val := 1036831949, err := none },
    CreateTime := { val := 1700000000000, err := none },
    IsRunning := { val := true, err := none } }

/-- A process that exited after enumeration: every query fails, and the
parent-id query hands back `-1` beside its error while the others hand back
a zero or empty value. -/
def goneProcess : Process :=
  { Pid := 4242,
    Ppid := { val := -1, err := some someError },
    Uids := { val := GoSlice.mk [], err := some someError },
    Gids := { val := GoSlice.mk [], err := some someError },
    Groups := { val := GoSlice.mk [], err := some someError },
    NumThreads := { val := 0, err := some someError },
    Username := { val := [], err := some someError },
    Nice := { val := 0, err := some someError },
    Name := { val := [], err := some someError },
    Exe := { val := [], err := some someError },
    CmdlineSlice := { val := GoSlice.nil, err := some someError },
    Cwd := { val := [], err := some someError },
    CPUPercent := { val := 0, err := some someError },
    MemoryPercent := { val := 0, err := some someError },
    CreateTime := { val := 0, err := some someError },
    IsRunning := { val := false, err := some someError } }

/-- The partition mounted at `/`. -/
def rootPartition : PartitionStat :=
  { Device := [47, 100, 101, 118, 47, 97], Mountpoint := [47],
    Fstype := [101, 120, 116, 52], Opts := GoSlice.mk [[114, 119]] }

/-- The partition mounted at `/mnt`. -/
def mntPartition : PartitionStat :=
  { Device := [47, 100, 101, 118, 47, 98], Mountpoint := [47, 109, 110, 116],
    Fstype := [101, 120, 116, 52], Opts := GoSlice.mk [[114, 111]] }

/-- An environment with two processes and two partitions in which the usage
query succeeds for `/` only and the memory query fails. -/
def sampleOS : OS :=
  { Processes := { val := GoSlice.mk [initProcess, goneProcess], err := none },
    Partitions := fun _ => { val := GoSlice.mk [rootPartition, mntPartition], err := none },
    Usage := fun path =>
      if path = [47] then { val := some { contents := 42 }, err := none }
      else { val := none, err := some someError },
    Avg := { val := some { contents := 1 }, err := none },
    VirtualMemory := { val := none, err := some someError },
    Interfaces := { val := GoSlice.mk [{ contents := 7 }], err := none },
    Info := { val := some { contents := 9 }, err := none } }

/-- The bits of a `float64` NaN. -/
def nan64 : Float64 := 9221120237041090560

/-- The sample environment, except that the memory query succeeds with a
record whose `UsedPercent` is NaN. -/
def nanOS : OS :=
  { sampleOS with
    VirtualMemory := { val := some { contents := 3, UsedPercent := nan64 }, err := none } }

/-- The bytes of `:8080`. -/
def defaultBind : GoString := [58, 56, 48, 56, 48]

/-- A UUID string standing for what `uuid.NewString()` returns. -/
def sampleUUID : GoString := [48, 49, 50, 51]

/-- Flags with no `-apikey` and with `-uuidgen`. -/
def uuidgenFlags : Flags :=
  { path := [47], bind := defaultBind, apikey := [], uuidgen := true, debug := false }

/-- Flags with no `-apikey` and without `-uuidgen`. -/
def bareFlags : Flags :=
  { path := [47], bind := defaultBind, apikey := [], uuidgen := false, debug := false }

/-! ## String comparison -/

theorem memequal_eq_true_iff :
    ∀ a b : GoString, a.length = b.length → (memequal a b a.length = true ↔ a = b)
  | [], [], _ => by simp [memequal]
  | [], _ :: _, h => by simp at h
  | _ :: _, [], h => by simp at h
  | x :: xs, y :: ys, h => by
      have hlen : xs.length = ys.length := by simpa using h
      have ih := memequal_eq_true_iff xs ys hlen
      simp [memequal, ih]

theorem stringEq_eq_true_iff (a b : GoString) : stringEq a b = true ↔ a = b := by
  unfold stringEq
  constructor
  · intro h
    simp only [Bool.and_eq_true, beq_iff_eq] at h
    exact (memequal_eq_true_iff a b h.1).1 h.2
  · intro h
    subst h
    simp only [Bool.and_eq_true, beq_iff_eq, true_and]
    exact (memequal_eq_true_iff a a rfl).2 rfl

theorem stringEq_eq_false_iff (a b : GoString) : stringEq a b = false ↔ a ≠ b := by
  have h := stringEq_eq_true_iff a b
  cases hs : stringEq a b
  · simp only [true_iff]
    intro hab
    rw [h.2 hab] at hs
    cases hs
  · simp only [false_iff, ne_eq, not_not, reduceCtorEq]
    exact h.1 hs

/-! ## The collection loops -/

theorem GoSlice.elems_mk {α : Type} (xs : List α) : (GoSlice.mk xs).elems = xs := rfl

theorem GoSlice.set_mk {α : Type} (xs : List α) (i : Nat) (v : α) :
    (GoSlice.mk xs).set i v = GoSlice.mk (xs.set i v) := rfl

/-- A loop that stores `f x` at the index of `x` and logs `q x` fills the
slots after `pre` with the images of the ranged elements, in order. -/
theorem rangeFrom_store {α β : Type} (f : α → β) (q : α → List Query) (z : β) :
    ∀ (xs : List α) (pre : List β) (tr : List Query),
      rangeFrom (storeStep f q) pre.length xs
        { val := GoSlice.mk (pre ++ List.replicate xs.length z), trace := tr }
      = { val := GoSlice.mk (pre ++ xs.map f), trace := tr ++ (xs.map q).flatten }
  | [], pre, tr => by simp [rangeFrom]
  | x :: xs, pre, tr => by
      have ih := rangeFrom_store f q z xs (pre ++ [f x]) (tr ++ q x)
      simp only [List.length_append, List.length_singleton, List.append_assoc,
        List.singleton_append] at ih
      have hset : (pre ++ z :: List.replicate xs.length z).set pre.length (f x)
          = pre ++ f x :: List.replicate xs.length z := by
        simp [List.set_append]
      have hstep : storeStep f q pre.length x
          { val := GoSlice.mk (pre ++ List.replicate (x :: xs).length z), trace := tr }
          = { val := GoSlice.mk (pre ++ f x :: List.replicate xs.length z),
              trace := tr ++ q x } := by
        simp only [storeStep, List.length_cons, List.replicate_succ, GoSlice.set_mk, hset]
      rw [rangeFrom, hstep, ih]
      simp only [List.map_cons, List.flatten_cons]

theorem GetSystemProcs_eq (os : OS) :
    GetSystemProcs os =
      { val := GoSlice.mk (os.Processes.val.elems.map procOf),
        trace := Query.Processes :: (os.Processes.val.elems.map procQueries).flatten } := by
  have h := rangeFrom_store procOf procQueries Proc.zero os.Processes.val.elems []
    [Query.Processes]
  simpa using h

theorem GetStorage_eq (os : OS) :
    GetStorage os =
      { val := GoSlice.mk ((os.Partitions false).val.elems.map (storageOf os)),
        trace := Query.Partitions false ::
          ((os.Partitions false).val.elems.map
            (fun part => [Query.Usage part.Mountpoint])).flatten } := by
  have h := rangeFrom_store (storageOf os) (fun part => [Query.Usage part.Mountpoint])
    Storage.zero (os.Partitions false).val.elems [] [Query.Partitions false]
  simpa using h

/-! ## The handler, case by case -/

theorem rejects_iff (apikey : GoString) (r : Request) :
    rejects apikey r = true ↔ r.bindError ≠ none ∨ r.Authorization.getD [] ≠ apikey := by
  unfold rejects BindHeader Security.IsValid
  cases hb : r.bindError with
  | none => simp [stringEq_eq_false_iff]
  | some e => simp

theorem rejects_eq_false_iff (apikey : GoString) (r : Request) :
    rejects apikey r = false ↔ r.bindError = none ∧ r.Authorization.getD [] = apikey := by
  have h := rejects_iff apikey r
  cases hr : rejects apikey r
  · rw [hr] at h
    simp only [true_iff]
    by_contra hc
    have : r.bindError ≠ none ∨ r.Authorization.getD [] ≠ apikey := by
      by_cases hb : r.bindError = none
      · right
        intro ha
        exact hc ⟨hb, ha⟩
      · left
        exact hb
    exact absurd (h.2 this) (by simp)
  · rw [hr] at h
    simp only [false_iff, reduceCtorEq]
    intro hc
    rcases h.1 rfl with hb | ha
    · exact hb hc.1
    · exact ha hc.2

/-- When binding fails the framework has written 400 before the handler
aborts, and the handler's 401 comes too late. -/
theorem GetSystemInfo_of_bind_error (apikey : GoString) (os : OS) (r : Request)
    (h : r.bindError ≠ none) :
    GetSystemInfo apikey os r = { val := { status := 400, body := none }, trace := [] } := by
  cases hb : r.bindError with
  | none => exact absurd hb h
  | some e =>
      simp [GetSystemInfo, BindHeader, hb, AbortWithStatus, Context.Status,
        Context.WriteHeaderNow, Context.fresh, Context.response, StatusBadRequest,
        StatusUnauthorized, StatusOK]

/-- When binding succeeds and the credential differs from the secret the
handler's abort sets 401. -/
theorem GetSystemInfo_of_invalid (apikey : GoString) (os : OS) (r : Request)
    (hb : r.bindError = none) (hv : r.Authorization.getD [] ≠ apikey) :
    GetSystemInfo apikey os r = { val := { status := 401, body := none }, trace := [] } := by
  have hs : stringEq (r.Authorization.getD []) apikey = false :=
    (stringEq_eq_false_iff _ _).2 hv
  simp [GetSystemInfo, BindHeader, hb, Security.IsValid, hs, AbortWithStatus, Context.Status,
    Context.WriteHeaderNow, Context.fresh, Context.response, StatusUnauthorized, StatusOK]

/-- When binding succeeds and the credential is the secret the handler
collects everything and renders the aggregate. -/
theorem GetSystemInfo_of_valid (apikey : GoString) (os : OS) (r : Request)
    (hb : r.bindError = none) (hv : r.Authorization.getD [] = apikey) :
    GetSystemInfo apikey os r
      = { val := { status := 200,
                   body := if (aggregate os).marshals = true then some (aggregate os) else none },
          trace := collectionTrace os } := by
  have hs : stringEq (r.Authorization.getD []) apikey = true :=
    (stringEq_eq_true_iff _ _).2 hv
  have hagg : ({ Procs := (GetSystemProcs os).val, Storage := (GetStorage os).val,
                 SysLoad := os.Avg.val, MemLoad := os.VirtualMemory.val,
                 Host := os.Info.val, Net := os.Interfaces.val } : System) = aggregate os := by
    rw [GetSystemProcs_eq, GetStorage_eq]
    rfl
  have htr : (GetSystemProcs os).trace ++ [Query.Avg, Query.VirtualMemory]
      ++ (GetStorage os).trace ++ [Query.Interfaces, Query.Info] = collectionTrace os := by
    rw [GetSystemProcs_eq, GetStorage_eq]
    simp [collectionTrace]
  simp only [GetSystemInfo, BindHeader, hb, Security.IsValid, hs, System.zero, hagg, htr]
  by_cases hm : (aggregate os).marshals = true
  · simp [JSON, hm, Context.Status, Context.WriteHeaderNow, Context.fresh, Context.response,
      StatusOK]
  · simp [JSON, hm, Context.Status, Context.fresh, Context.response, StatusOK]

/-! ## Claims about the authorization gate -/

/-- C1: `IsValid` on a `Security` holding the presented credential `v`, called
with the secret `s`, returns true exactly when `v` and `s` are the same byte
sequence. -/
theorem IsValid_iff_bytes_equal (s v : GoString) :
    Security.IsValid { Authorization := v } s = true ↔ v = s := by
  unfold Security.IsValid
  exact stringEq_eq_true_iff v s

/-- C2, as stated, fails: with the secret `s3cr3t`, a request that carries the
wrong value and whose binding fails is answered with 400, not 401. -/
theorem GetSystemInfo_bind_failure_status :
    (GetSystemInfo s3cr3t failingOS
        { Authorization := some wrong, bindError := some someError }).val.status = 400 := by
  decide

/-- C2, amended: with a non-empty secret, a request whose binding succeeds and
whose header is absent or differs from the secret is answered with status
401. -/
theorem GetSystemInfo_status_unauthorized (apikey : GoString) (os : OS) (r : Request)
    (hkey : apikey ≠ []) (hb : r.bindError = none)
    (h : r.Authorization = none ∨ r.Authorization ≠ some apikey) :
    (GetSystemInfo apikey os r).val.status = 401 := by
  have hv : r.Authorization.getD [] ≠ apikey := by
    intro hc
    cases ha : r.Authorization with
    | none =>
        rw [ha] at hc
        exact hkey hc.symm
    | some v =>
        rw [ha] at hc h
        simp only [Option.getD_some] at hc
        rcases h with h | h
        · cases h
        · apply h
          rw [hc]
  rw [GetSystemInfo_of_invalid apikey os r hb hv]

theorem GetSystemInfo_status_unauthorized_witness :
    (GetSystemInfo s3cr3t failingOS { Authorization := some wrong, bindError := none }).val.status
        = 401
      ∧ (GetSystemInfo s3cr3t failingOS { Authorization := none, bindError := none }).val.status
        = 401
      ∧ (GetSystemInfo s3cr3t failingOS
          { Authorization := some s3cr3tUpper, bindError := none }).val.status = 401
      ∧ (GetSystemInfo s3cr3t failingOS
          { Authorization := some s3cr3tSpace, bindError := none }).val.status = 401 :=
  ⟨GetSystemInfo_status_unauthorized s3cr3t failingOS _ (by decide) rfl (Or.inr (by decide)),
   GetSystemInfo_status_unauthorized s3cr3t failingOS _ (by decide) rfl (Or.inl rfl),
   GetSystemInfo_status_unauthorized s3cr3t failingOS _ (by decide) rfl (Or.inr (by decide)),
   GetSystemInfo_status_unauthorized s3cr3t failingOS _ (by decide) rfl (Or.inr (by decide))⟩

/-- C4, as stated, fails: a request rejected through a bind error triggers no
library call and gets no body, but its status is 400, not 401. -/
theorem GetSystemInfo_bind_failure_response :
    (BindHeader Context.fresh { Authorization := some s3cr3t, bindError := some someError }).1.err
        = some someError
      ∧ GetSystemInfo s3cr3t failingOS
          { Authorization := some s3cr3t, bindError := some someError }
        = { val := { status := 400, body := none }, trace := [] } := by
  decide

/-- C4, amended: a request the handler rejects, through a bind error or a
false `IsValid`, triggers no library call and gets no body; when the binding
succeeded and `IsValid` is false the status is 401. -/
theorem GetSystemInfo_rejected_collects_nothing (apikey : GoString) (os : OS) (r : Request)
    (h : (BindHeader Context.fresh r).1.err ≠ none
      ∨ (BindHeader Context.fresh r).1.val.IsValid apikey = false) :
    (GetSystemInfo apikey os r).trace = []
      ∧ (GetSystemInfo apikey os r).val.body = none
      ∧ ((BindHeader Context.fresh r).1.err = none →
          (GetSystemInfo apikey os r).val.status = 401) := by
  have hrej : rejects apikey r = true := by
    unfold rejects
    rcases h with h | h
    · simp [Option.isSome_iff_ne_none, h]
    · simp [h]
  by_cases hb : r.bindError = none
  · have hv : r.Authorization.getD [] ≠ apikey := by
      rcases (rejects_iff apikey r).1 hrej with h1 | h1
      · exact absurd hb h1
      · exact h1
    rw [GetSystemInfo_of_invalid apikey os r hb hv]
    exact ⟨rfl, rfl, fun _ => rfl⟩
  · rw [GetSystemInfo_of_bind_error apikey os r hb]
    refine ⟨rfl, rfl, ?_⟩
    intro he
    exfalso
    apply hb
    unfold BindHeader at he
    cases hbe : r.bindError with
    | none => rfl
    | some e =>
        rw [hbe] at he
        cases he

theorem GetSystemInfo_rejected_collects_nothing_witness :
    (GetSystemInfo s3cr3t sampleOS { Authorization := some wrong, bindError := none }).trace = []
      ∧ (GetSystemInfo s3cr3t sampleOS
          { Authorization := some wrong, bindError := none }).val.body = none
      ∧ (GetSystemInfo s3cr3t sampleOS
          { Authorization := some wrong, bindError := none }).val.status = 401 :=
  ⟨(GetSystemInfo_rejected_collects_nothing s3cr3t sampleOS
      { Authorization := some wrong, bindError := none } (Or.inr (by decide))).1,
   (GetSystemInfo_rejected_collects_nothing s3cr3t sampleOS
      { Authorization := some wrong, bindError := none } (Or.inr (by decide))).2.1,
   (GetSystemInfo_rejected_collects_nothing s3cr3t sampleOS
      { Authorization := some wrong, bindError := none } (Or.inr (by decide))).2.2 rfl⟩

/-- C5, as stated, fails: an authorized request served while the memory query
succeeds with a NaN `UsedPercent` gets no aggregate body. -/
theorem GetSystemInfo_nan_no_body :
    nanOS.VirtualMemory.err = none
      ∧ (GetSystemInfo s3cr3t nanOS
          { Authorization := some s3cr3t, bindError := none }).val.body = none := by
  decide

/-- C5, amended: when every floating-point value of the collected aggregate is
finite, a request that binds and carries the secret is answered with status
200 and the assembled aggregate whatever errors the library calls report, and
a status other than 200 arises only from a bind error or a false `IsValid`. -/
theorem GetSystemInfo_authorized_status_ok (apikey : GoString) (os : OS) (r : Request)
    (hfin : (aggregate os).marshals = true) :
    (r.bindError = none → r.Authorization = some apikey →
        (GetSystemInfo apikey os r).val.status = 200
        ∧ (GetSystemInfo apikey os r).val.body
            = some { Procs := (GetSystemProcs os).val, Storage := (GetStorage os).val,
                     SysLoad := os.Avg.val, MemLoad := os.VirtualMemory.val,
                     Host := os.Info.val, Net := os.Interfaces.val })
      ∧ ((GetSystemInfo apikey os r).val.status ≠ 200 →
          (BindHeader Context.fresh r).1.err ≠ none
            ∨ (BindHeader Context.fresh r).1.val.IsValid apikey = false) := by
  constructor
  · intro hb ha
    have hv : r.Authorization.getD [] = apikey := by rw [ha]; rfl
    rw [GetSystemInfo_of_valid apikey os r hb hv, GetSystemProcs_eq, GetStorage_eq, if_pos hfin]
    exact ⟨rfl, rfl⟩
  · intro hs
    cases hr : rejects apikey r
    · rw [rejects_eq_false_iff] at hr
      rw [GetSystemInfo_of_valid apikey os r hr.1 hr.2] at hs
      exact absurd rfl hs
    · unfold rejects at hr
      simp only [Bool.or_eq_true, Bool.not_eq_true', Option.isSome_iff_ne_none] at hr
      exact hr

theorem GetSystemInfo_authorized_status_ok_witness :
    (aggregate sampleOS).marshals = true
      ∧ (GetSystemInfo s3cr3t sampleOS
          { Authorization := some s3cr3t, bindError := none }).val.status = 200
      ∧ (GetSystemInfo s3cr3t sampleOS
          { Authorization := some s3cr3t, bindError := none }).val.body
        = some { Procs := (GetSystemProcs sampleOS).val, Storage := (GetStorage sampleOS).val,
                 SysLoad := sampleOS.Avg.val, MemLoad := sampleOS.VirtualMemory.val,
                 Host := sampleOS.Info.val, Net := sampleOS.Interfaces.val } :=
  ⟨by decide,
   (GetSystemInfo_authorized_status_ok s3cr3t sampleOS
      { Authorization := some s3cr3t, bindError := none } (by decide)).1 rfl rfl⟩

/-- C9: with a non-empty secret, a request with no `Authorization` header and
a request with a wrong one, both bound without error, receive the same
answer, status 401 with no body and no library call, whatever the
environment. -/
theorem GetSystemInfo_absent_same_as_wrong (apikey w : GoString) (os os2 : OS)
    (hkey : apikey ≠ []) (hw : w ≠ apikey) :
    GetSystemInfo apikey os { Authorization := none, bindError := none }
        = GetSystemInfo apikey os2 { Authorization := some w, bindError := none }
      ∧ GetSystemInfo apikey os { Authorization := none, bindError := none }
        = { val := { status := 401, body := none }, trace := [] } := by
  have h1 : GetSystemInfo apikey os { Authorization := none, bindError := none }
      = { val := { status := 401, body := none }, trace := [] } :=
    GetSystemInfo_of_invalid apikey os _ rfl (fun hc => hkey hc.symm)
  have h2 : GetSystemInfo apikey os2 { Authorization := some w, bindError := none }
      = { val := { status := 401, body := none }, trace := [] } :=
    GetSystemInfo_of_invalid apikey os2 _ rfl hw
  rw [h1, h2]
  exact ⟨rfl, rfl⟩

theorem GetSystemInfo_absent_same_as_wrong_witness :
    GetSystemInfo s3cr3t sampleOS { Authorization := none, bindError := none }
        = GetSystemInfo s3cr3t failingOS { Authorization := some wrong, bindError := none }
      ∧ GetSystemInfo s3cr3t sampleOS { Authorization := none, bindError := none }
        = { val := { status := 401, body := none }, trace := [] } :=
  GetSystemInfo_absent_same_as_wrong s3cr3t wrong sampleOS failingOS (by decide) (by decide)

/-- C10: a request without `Authorization` header whose binding succeeds is
answered with status 200 exactly when the configured secret is empty, and
`main` registers the route only when the secret is non-empty. -/
theorem GetSystemInfo_headerless_ok_iff_empty_secret (apikey : GoString) (os : OS) :
    ((GetSystemInfo apikey os { Authorization := none, bindError := none }).val.status = 200
        ↔ apikey = [])
      ∧ (∀ (f : Flags) (newUUID path : GoString),
          Effect.GET path ∈ (main f newUUID).1 → f.apikey ≠ []) := by
  constructor
  · constructor
    · intro hs
      by_contra hk
      have hv : (({ Authorization := none, bindError := none } : Request).Authorization.getD [])
          ≠ apikey := fun hc => hk hc.symm
      rw [GetSystemInfo_of_invalid apikey os _ rfl hv] at hs
      exact absurd hs (by decide)
    · intro hk
      have hv : (({ Authorization := none, bindError := none } : Request).Authorization.getD [])
          = apikey := hk.symm
      rw [GetSystemInfo_of_valid apikey os _ rfl hv]
  · intro f newUUID path hmem hk
    unfold main at hmem
    by_cases hu : f.uuidgen = true
    · simp [hu] at hmem
    · simp [hu, hk] at hmem

/-! ## Claims about start-up -/

/-- C3, as stated, fails: with an empty secret and `-uuidgen`, `main` prints
the UUID and returns normally instead of panicking. -/
theorem main_empty_secret_uuidgen_returns :
    uuidgenFlags.apikey = []
      ∧ main uuidgenFlags sampleUUID = ([Effect.Println sampleUUID], Exit.returned) :=
  ⟨rfl, rfl⟩

/-- C3, amended: with an empty secret `main` never creates the engine,
registers the route or serves; it panics with `-apikey was not set` when
`-uuidgen` is off, and prints the UUID and returns when `-uuidgen` is on. -/
theorem main_empty_secret_never_serves (f : Flags) (newUUID : GoString)
    (h : f.apikey = []) :
    (∀ e ∈ (main f newUUID).1,
        e ≠ Effect.Default ∧ (∀ path, e ≠ Effect.GET path) ∧ (∀ bind, e ≠ Effect.Run bind))
      ∧ (f.uuidgen = false → (main f newUUID).2 = Exit.panicked apikeyNotSet)
      ∧ (f.uuidgen = true → main f newUUID = ([Effect.Println newUUID], Exit.returned)) := by
  refine ⟨?_, ?_, ?_⟩
  · intro e he
    unfold main at he
    by_cases hu : f.uuidgen = true
    · simp only [hu, if_true, List.mem_singleton] at he
      subst he
      simp
    · have hm : e = Effect.DisableConsoleColor
          ∨ e = Effect.SetMode (if f.debug = true then Mode.DebugMode else Mode.ReleaseMode) := by
        simpa [hu, h] using he
      rcases hm with hm | hm <;> subst hm <;> simp
  · intro hu
    simp [main, hu, h]
  · intro hu
    simp [main, hu]

theorem main_empty_secret_never_serves_witness :
    bareFlags.apikey = []
      ∧ (main bareFlags sampleUUID).2 = Exit.panicked apikeyNotSet
      ∧ (∀ e ∈ (main bareFlags sampleUUID).1,
          e ≠ Effect.Default ∧ (∀ path, e ≠ Effect.GET path) ∧ (∀ bind, e ≠ Effect.Run bind)) :=
  ⟨rfl, (main_empty_secret_never_serves bareFlags sampleUUID rfl).2.1 rfl,
    (main_empty_secret_never_serves bareFlags sampleUUID rfl).1⟩

/-! ## Claims about the aggregate -/

/-- C6, as stated, fails: an authorized request served while the interface
query returns a nil slice beside its error gets status 200 with a nil `Net`,
which is rendered as `null`. -/
theorem GetSystemInfo_net_nil_when_query_fails :
    (GetSystemInfo s3cr3t failingOS { Authorization := some s3cr3t, bindError := none }).val
        = { status := 200,
            body := some { Procs := GoSlice.mk [], Storage := GoSlice.mk [], SysLoad := none,
                           MemLoad := none, Host := none, Net := GoSlice.nil } }
      ∧ (GoSlice.nil : GoSlice InterfaceStat).isNil = true := by
  decide

/-- C6, amended: when every floating-point value of the collected aggregate is
finite, the response to an authorized request is 200 with the aggregate, in
which `Procs` and `Storage` are never nil, `Storage` is the empty non-nil
slice when no partition is enumerated, and `Net` is the slice the interface
query returned. -/
theorem GetSystemInfo_slices_of_aggregate (apikey : GoString) (os : OS) (r : Request)
    (hb : r.bindError = none) (ha : r.Authorization = some apikey)
    (hfin : (aggregate os).marshals = true) :
    ∃ sys, (GetSystemInfo apikey os r).val = { status := 200, body := some sys }
      ∧ sys.Procs.isNil = false
      ∧ sys.Storage.isNil = false
      ∧ ((os.Partitions false).val.len = 0 → sys.Storage = GoSlice.mk [])
      ∧ sys.Net = os.Interfaces.val := by
  have hv : r.Authorization.getD [] = apikey := by rw [ha]; rfl
  refine ⟨aggregate os, ?_, rfl, rfl, ?_, rfl⟩
  · rw [GetSystemInfo_of_valid apikey os r hb hv, if_pos hfin]
  · intro hlen
    have hnil : (os.Partitions false).val.elems = [] := List.length_eq_zero.mp hlen
    simp [aggregate, hnil]

theorem GetSystemInfo_slices_of_aggregate_witness :
    (aggregate failingOS).marshals = true
      ∧ ∃ sys, (GetSystemInfo s3cr3t failingOS
          { Authorization := some s3cr3t, bindError := none }).val
        = { status := 200, body := some sys }
      ∧ sys.Procs.isNil = false
      ∧ sys.Storage.isNil = false
      ∧ ((failingOS.Partitions false).val.len = 0 → sys.Storage = GoSlice.mk [])
      ∧ sys.Net = failingOS.Interfaces.val :=
  ⟨by decide, GetSystemInfo_slices_of_aggregate s3cr3t failingOS
    { Authorization := some s3cr3t, bindError := none } rfl rfl (by decide)⟩

/-! ## Claims about the two collections -/

/-- C7: provided the usage query returns a nil pointer whenever it reports an
error, `GetStorage` returns one entry per enumerated partition, in order; the
entry at index `i` holds the partition at index `i`, the usage the query
returned for its mountpoint when the query succeeds, and nil when it fails. -/
theorem GetStorage_entries (os : OS)
    (hlib : ∀ path, (os.Usage path).err ≠ none → (os.Usage path).val = none) :
    (GetStorage os).val.len = (os.Partitions false).val.len
      ∧ ∀ (i : Nat) (part : PartitionStat), (os.Partitions false).val.elems[i]? = some part →
          ∃ entry, (GetStorage os).val.elems[i]? = some entry
            ∧ entry.Partition = part
            ∧ ((os.Usage part.Mountpoint).err = none →
                entry.Usage = (os.Usage part.Mountpoint).val)
            ∧ ((os.Usage part.Mountpoint).err ≠ none → entry.Usage = none) := by
  rw [GetStorage_eq]
  constructor
  · simp [GoSlice.len, GoSlice.elems_mk]
  · intro i part hi
    refine ⟨storageOf os part, ?_, rfl, fun _ => rfl, ?_⟩
    · rw [GoSlice.elems_mk, List.getElem?_map, hi]
      rfl
    · intro herr
      exact hlib part.Mountpoint herr

theorem GetStorage_entries_witness :
    (GetStorage sampleOS).val.len = 2
      ∧ (∃ entry, (GetStorage sampleOS).val.elems[0]? = some entry
          ∧ entry.Partition = rootPartition ∧ entry.Usage = some { contents := 42 })
      ∧ (∃ entry, (GetStorage sampleOS).val.elems[1]? = some entry
          ∧ entry.Partition = mntPartition ∧ entry.Usage = none) := by
  have hlib : ∀ path, (sampleOS.Usage path).err ≠ none → (sampleOS.Usage path).val = none := by
    intro path
    unfold sampleOS
    by_cases hp : path = [47] <;> simp [hp]
  have h := GetStorage_entries sampleOS hlib
  refine ⟨h.1, ?_, ?_⟩
  · obtain ⟨entry, he, hp, hu, _⟩ := h.2 0 rootPartition rfl
    exact ⟨entry, he, hp, hu rfl⟩
  · obtain ⟨entry, he, hp, _, hu⟩ := h.2 1 mntPartition rfl
    exact ⟨entry, he, hp, hu (by decide)⟩

/-- C8, as stated, fails: the parent-id query of the second process reports
an error and hands back `-1`, and the entry built for that process carries
`-1`, not the zero value. -/
theorem GetSystemProcs_failed_ppid_kept :
    sampleOS.Processes.val.elems[1]? = some goneProcess
      ∧ goneProcess.Ppid.err = some someError
      ∧ ((GetSystemProcs sampleOS).val.elems[1]?).map Proc.Ppid = some (-1) := by
  decide

/-- C8, amended: `GetSystemProcs` returns one entry per enumerated process, in
order; the entry at index `i` carries the pid of the process at index `i`,
and each of its fifteen queried fields is the value that field's own query
returned, whether or not the query also reported an error. -/
theorem GetSystemProcs_entries (os : OS) :
    (GetSystemProcs os).val.len = os.Processes.val.len
      ∧ ∀ (i : Nat) (process : Process), os.Processes.val.elems[i]? = some process →
          ∃ proc, (GetSystemProcs os).val.elems[i]? = some proc
            ∧ proc.Pid = process.Pid
            ∧ proc.Ppid = process.Ppid.val
            ∧ proc.Uids = process.Uids.val
            ∧ proc.Gids = process.Gids.val
            ∧ proc.Groups = process.Groups.val
            ∧ proc.Nthreads = process.NumThreads.val
            ∧ proc.User = process.Username.val
            ∧ proc.Nice = process.Nice.val
            ∧ proc.Name = process.Name.val
            ∧ proc.Executable = process.Exe.val
            ∧ proc.Cmdline = process.CmdlineSlice.val
            ∧ proc.Cwd = process.Cwd.val
            ∧ proc.CpuPerc = process.CPUPercent.val
            ∧ proc.MemPerc = process.MemoryPercent.val
            ∧ proc.CreateTime = process.CreateTime.val
            ∧ proc.IsRunning = process.IsRunning.val := by
  rw [GetSystemProcs_eq]
  constructor
  · simp [GoSlice.len, GoSlice.elems_mk]
  · intro i process hi
    refine ⟨procOf process, ?_, rfl, rfl, rfl, rfl, rfl, rfl, rfl, rfl, rfl, rfl, rfl, rfl,
      rfl, rfl, rfl, rfl⟩
    rw [GoSlice.elems_mk, List.getElem?_map, hi]
    rfl

end SystemInfo
